import Mathlib

/-!
Verification of the fragarach retrieval-and-persistence core against its
specification.  The Rust sources under `src/` are shallowly embedded:
network, filesystem and database effects are scripted as explicit
parameters, machine loops become fuel-indexed structural recursion with the
fuel chosen so that the exhaustion branch coincides exactly with the
source's own loop bound, and fallible code returns `Except`.
-/

namespace Fragarach

/-! ## ScanSession polling (src/api/urlscan.rs, lines 120-140) -/

/-- Scripted status outcome of one poll `GET /result/{uuid}/` inside
`scan_domain`: HTTP 200 with the parsed body, HTTP 404 while the scan is
still pending, or any other status.  Transport failures of `send()` are a
separate error path (propagated by `?`) that the scripted sequences of the
claims do not exercise. -/
inductive PollResponse (V : Type) where
  | ok (body : V)
  | notFound
  | other (status : Nat)

/-- Terminal outcome of the polling block of `scan_domain`: `collected`
carries the parsed 200 body together with the accumulated backoff seconds
(`elapsed` at the moment of the `break`), `failed` carries the unexpected
status of the `return Err(...)` arm, and `timedOut` is the
`result_opt.ok_or("Timeout waiting for scan to complete.")` path taken
when the loop ends with `result_opt` still `None`. -/
inductive PollOutcome (V : Type) where
  | collected (body : V) (elapsedSecs : Nat)
  | failed (status : Nat)
  | timedOut
deriving DecidableEq

/-- The loop `while elapsed < timeout` of `scan_domain` with `timeout =
120` seconds and a 5-second backoff per 404.  `fuel` counts remaining
iterations: each 404 adds 5 to `elapsed`, so along the real execution
`elapsed + 5 * fuel = 120` and the `fuel = 0` branch is reached exactly
when the loop condition `elapsed < 120` turns false; `pollLoop` starts the
recursion at `fuel = 24`, `elapsed = 0`. -/
def pollFrom {V : Type} (resp : Nat → PollResponse V) :
    Nat → Nat → Nat → PollOutcome V
  | 0, _, _ => .timedOut
  | fuel + 1, i, elapsed =>
    if elapsed < 120 then
      match resp i with
      | .ok body => .collected body elapsed
      | .notFound => pollFrom resp fuel (i + 1) (elapsed + 5)
      | .other s => .failed s
    else .timedOut

/-- The whole polling block of `scan_domain` run against the scripted
response sequence `resp`. -/
def pollLoop {V : Type} (resp : Nat → PollResponse V) : PollOutcome V :=
  pollFrom resp 24 0 0

theorem pollFrom_succ {V : Type} (resp : Nat → PollResponse V)
    (fuel i elapsed : Nat) :
    pollFrom resp (fuel + 1) i elapsed =
      if elapsed < 120 then
        match resp i with
        | .ok body => .collected body elapsed
        | .notFound => pollFrom resp fuel (i + 1) (elapsed + 5)
        | .other s => .failed s
      else .timedOut := rfl

/-! ## Enrichment phase of scan_domain (src/api/urlscan.rs, lines 192-243) -/

/-- HTTP response as seen by the enrichment code: numeric status plus the
materialized body (the payload that `bytes()` / `text()` yields). -/
structure HttpResponse where
  status : Nat
  body : String
deriving DecidableEq

/-- reqwest's `StatusCode::is_success`: status in 200..=299. -/
def isSuccessStatus (s : Nat) : Bool := decide (200 ≤ s) && decide (s < 300)

/-- Artifacts recorded by the enrichment phase: the screenshot path written
to the database (`none` would mean "absent"), whether the
"Failed to download screenshot" line was printed, and the stored DOM
text. -/
structure EnrichOutcome where
  screenshot_path : Option String
  screenshotFailureLogged : Bool
  dom : Option String
deriving DecidableEq

/-- The enrichment phase of `scan_domain` after the primary result has
been collected.  `screenshotSend` scripts
`client.get(screenshot_url).send().await` (`.error` is a transport
failure, propagated by `?`); a received non-2xx response only triggers a
`println!` (line 196) after which the body bytes are still written to
`screenshots/<uuid>.png` and the path is still recorded.  `fsWrite`
scripts the combined `create_dir_all` / `fs::write` outcome (each awaited
with `?`).  `domSend` scripts the DOM `send()` (also `?`); its status is
never checked and `text()` of whatever arrived is stored.  The database
`UPDATE`/`INSERT` statements themselves are modelled separately for the
staged-upsert claim. -/
def enrichmentPhase (uuid : String) (screenshotSend : Except String HttpResponse)
    (fsWrite : Except String Unit) (domSend : Except String HttpResponse) :
    Except String EnrichOutcome :=
  match screenshotSend with
  | .error e => .error e
  | .ok sresp =>
    let logged := !isSuccessStatus sresp.status
    match fsWrite with
    | .error e => .error e
    | .ok _ =>
      let spath := "screenshots/" ++ uuid ++ ".png"
      match domSend with
      | .error e => .error e
      | .ok dresp => .ok ⟨some spath, logged, some dresp.body⟩

/-! ## Theorems for claims C1 and C2 -/

/-- Claim C1: each poll GETs the result resource; a 404 adds the fixed
5-second backoff to the accumulated elapsed counter and polling continues;
a 200 ends polling in `collected` with the parsed result; any other status
ends in `failed`.  For the scripted sequence [404, 404, 200] the session
reaches `collected` with accumulated elapsed backoff `2 * 5` seconds, and
if only 404 responses are ever seen the session terminates as `timedOut`
once the accumulated time reaches the 120-second ceiling — in particular
never as `failed`. -/
theorem C1_scan_polling {V : Type} :
    (∀ (r : V) (resp : Nat → PollResponse V),
      resp 0 = .notFound → resp 1 = .notFound → resp 2 = .ok r →
      pollLoop resp = .collected r (2 * 5)) ∧
    (∀ (resp : Nat → PollResponse V) (s : Nat), resp 0 = .other s →
      pollLoop resp = .failed s) ∧
    (∀ resp : Nat → PollResponse V, (∀ i, resp i = .notFound) →
      pollLoop resp = .timedOut) := by
  refine ⟨?_, ?_, ?_⟩
  · intro r resp h0 h1 h2
    show pollFrom resp 24 0 0 = _
    rw [pollFrom_succ, h0, if_pos (by norm_num)]
    show pollFrom resp 23 1 5 = _
    rw [pollFrom_succ, h1, if_pos (by norm_num)]
    show pollFrom resp 22 2 10 = _
    rw [pollFrom_succ, h2, if_pos (by norm_num)]
  · intro resp s h0
    show pollFrom resp 24 0 0 = _
    rw [pollFrom_succ, h0, if_pos (by norm_num)]
  · intro resp h
    have key : ∀ fuel i elapsed, pollFrom resp fuel i elapsed = .timedOut := by
      intro fuel
      induction fuel with
      | zero => intro i e; rfl
      | succ n ih =>
        intro i e
        rw [pollFrom_succ, h i]
        split
        · exact ih (i + 1) (e + 5)
        · rfl
    exact key 24 0 0

/-- Witness for C1: the scripted run [404, 404, 200, ...] collects with 10
seconds of accumulated backoff, and an all-404 script times out. -/
theorem C1_scan_polling_witness :
    pollLoop (fun i => if i < 2 then PollResponse.notFound else .ok (0 : Nat)) =
      PollOutcome.collected 0 10 ∧
    pollLoop (fun _ => (PollResponse.notFound : PollResponse Nat)) =
      PollOutcome.timedOut := by
  constructor
  · exact C1_scan_polling.1 0 _ rfl rfl rfl
  · exact C1_scan_polling.2.2 _ (fun _ => rfl)

/-- Counterexample to claim C2 (the claim says a failure of the screenshot
binary download or of the DOM text download does not fail the session, and
that such a failed artifact is recorded as absent).  First conjunct: a
transport-level failure of the screenshot download is propagated by `?`,
so `scan_domain` terminates with that error — the session does fail.
Second conjunct: a screenshot download that completes with HTTP 404 does
not fail the session, but the artifact is recorded as present
(`screenshot_path = some ...`, the error body having been written to the
file), not as absent. -/
theorem C2_counterexample :
    enrichmentPhase "u1" (.error "connection reset") (.ok ())
        (.ok ⟨200, "domtext"⟩) = .error "connection reset" ∧
    enrichmentPhase "u1" (.ok ⟨404, "not found"⟩) (.ok ())
        (.ok ⟨200, "domtext"⟩) =
      .ok ⟨some "screenshots/u1.png", true, some "domtext"⟩ :=
  ⟨rfl, rfl⟩

/-- Claim C2 amended: only an HTTP-level (non-2xx) completion of the
screenshot download is tolerated — it is logged and the session continues,
with the response body written to the screenshot file and the path
recorded as present, not absent.  A transport-level failure of the
screenshot download, of the screenshot file write, or of the DOM download
propagates via `?` and fails `scan_domain`; the DOM download's status is
never checked. -/
theorem C2_amended (u bdy d : String) (s : Nat) :
    (∀ (e : String) (fs : Except String Unit) (ds : Except String HttpResponse),
      enrichmentPhase u (.error e) fs ds = .error e) ∧
    (isSuccessStatus s = false →
      enrichmentPhase u (.ok ⟨s, bdy⟩) (.ok ()) (.ok ⟨200, d⟩) =
        .ok ⟨some ("screenshots/" ++ u ++ ".png"), true, some d⟩) ∧
    (∀ (e : String) (sresp : HttpResponse),
      enrichmentPhase u (.ok sresp) (.ok ()) (.error e) = .error e) ∧
    (∀ (e : String) (sresp : HttpResponse) (ds : Except String HttpResponse),
      enrichmentPhase u (.ok sresp) (.error e) ds = .error e) := by
  refine ⟨fun e fs ds => rfl, ?_, fun e sresp => rfl, fun e sresp ds => rfl⟩
  intro hs
  simp [enrichmentPhase, hs]

/-- Witness for the amended C2 at `s = 404`. -/
theorem C2_amended_witness :
    enrichmentPhase "u2" (.ok ⟨404, "err"⟩) (.ok ()) (.ok ⟨200, "dd"⟩) =
      .ok ⟨some "screenshots/u2.png", true, some "dd"⟩ :=
  (C2_amended "u2" "err" "dd" 404).2.1 rfl

/-! ## Dual-backend write fan-out (src/cli/mod.rs lines 249-268,
src/api/urlscan.rs lines 77-118) -/

/-- Which backends' save/execute calls were actually reached during one
logical write fan-out. -/
structure FanoutTrace where
  sqliteAttempted : Bool
  pgAttempted : Bool
deriving DecidableEq

/-- The dual-backend save sequence of `query_ethereum_account`
(src/cli/mod.rs lines 249-268).  `saveAsSqlite` / `saveAsPostgres` are the
`config.save_as_sqlite` / `config.save_as_postgres` flags; `sqliteSave` /
`pgSave` script the result of the corresponding save call when the pool is
available (`none` models an unavailable pool, the "Skipping" branches).
The SQLite call `save_to_sqlite(...).await?` propagates its error; the
PostgreSQL call's result is consumed by a `match` whose two arms only
print, after which the function returns `Ok(())`.  The returned trace
records which backends' save calls were reached. -/
def accountSaveFanout (saveAsSqlite saveAsPostgres : Bool)
    (sqliteSave pgSave : Option (Except String Unit)) :
    Except String Unit × FanoutTrace :=
  let pgPart := fun (sq : Bool) =>
    match saveAsPostgres, pgSave with
    | true, some _ => ((.ok () : Except String Unit), (⟨sq, true⟩ : FanoutTrace))
    | _, _ => (.ok (), ⟨sq, false⟩)
  match saveAsSqlite, sqliteSave with
  | true, some (.error e) => (.error e, ⟨true, false⟩)
  | true, some (.ok _) => pgPart true
  | true, none => pgPart false
  | false, _ => pgPart false

/-- The dual-backend initial insert of `scan_domain` (src/api/urlscan.rs
lines 77-118): the SQLite `INSERT OR REPLACE` runs first and its
`execute(pool).await?` propagates any error; the PostgreSQL upsert runs
second, likewise with `?`.  `none` models an absent pool (the `if let
Some(pool)` guard not taken). -/
def scanInsertFanout (sqliteExec pgExec : Option (Except String Unit)) :
    Except String Unit × FanoutTrace :=
  match sqliteExec with
  | some (.error e) => (.error e, ⟨true, false⟩)
  | some (.ok _) =>
    match pgExec with
    | some (.error e) => (.error e, ⟨true, true⟩)
    | some (.ok _) => (.ok (), ⟨true, true⟩)
    | none => (.ok (), ⟨true, false⟩)
  | none =>
    match pgExec with
    | some (.error e) => (.error e, ⟨false, true⟩)
    | some (.ok _) => (.ok (), ⟨false, true⟩)
    | none => (.ok (), ⟨false, false⟩)

/-- Counterexample to claim C3 (the claim says that with both backends
configured, a write failure in one backend does not prevent the same write
from being attempted and applied to the other backend).  With both
backends configured and the PostgreSQL backend healthy, a SQLite save
failure in `query_ethereum_account` propagates via `?` and the PostgreSQL
save is never attempted (`pgAttempted = false`). -/
theorem C3_counterexample :
    accountSaveFanout true true (some (.error "sqlite: database is locked"))
        (some (.ok ())) =
      (.error "sqlite: database is locked", ⟨true, false⟩) := rfl

/-- Claim C3 amended: backend writes are fanned out sequentially, SQLite
first, with no rollback of completed writes.  In `query_ethereum_account`
a PostgreSQL save failure is caught by a `match` and reported without
raising, after the SQLite save has already been applied; but a SQLite save
failure propagates immediately, so the PostgreSQL save is never attempted.
In `scan_domain` both backends' failures propagate as errors: a SQLite
failure prevents the PostgreSQL write, and a PostgreSQL failure surfaces
after the SQLite write has completed (which is not rolled back). -/
theorem C3_amended :
    (∀ e : String, accountSaveFanout true true (some (.ok ()))
        (some (.error e)) = (.ok (), ⟨true, true⟩)) ∧
    (∀ (e : String) (pg : Option (Except String Unit)),
      accountSaveFanout true true (some (.error e)) pg =
        (.error e, ⟨true, false⟩)) ∧
    (∀ e : String, scanInsertFanout (some (.ok ())) (some (.error e)) =
      (.error e, ⟨true, true⟩)) ∧
    (∀ (e : String) (pg : Option (Except String Unit)),
      scanInsertFanout (some (.error e)) pg = (.error e, ⟨true, false⟩)) :=
  ⟨fun _ => rfl, fun _ _ => rfl, fun _ => rfl, fun _ _ => rfl⟩

/-- Witness for the amended C3: a PostgreSQL failure after a successful
SQLite save is absorbed, while a SQLite failure stops the fan-out before
the PostgreSQL attempt. -/
theorem C3_amended_witness :
    accountSaveFanout true true (some (.ok ())) (some (.error "pg down")) =
      (.ok (), ⟨true, true⟩) ∧
    accountSaveFanout true true (some (.error "sqlite down")) (some (.ok ())) =
      (.error "sqlite down", ⟨true, false⟩) :=
  ⟨C3_amended.1 "pg down", C3_amended.2.1 "sqlite down" (some (.ok ()))⟩

/-! ## Rate gate of query_ethereum_transactions (src/api/transpose.rs
lines 66, 73-77, 88) -/

/-- One pass through the pacing block at the top of the pagination loop:
`last` is the `last_request_time` instant and `pre` the current instant
when the loop top is reached (so `pre - last` is
`last_request_time.elapsed()`, with `last ≤ pre` along any real
execution).  If less than 1000 ms have elapsed the caller sleeps for the
remainder, so the request is issued at `last + 1000`; otherwise it is
issued immediately at `pre`.  Times are logical milliseconds. -/
def gateStep (last pre : Nat) : Nat :=
  if pre - last < 1000 then last + 1000 else pre

/-- The sequence of request issue/completion times of the paced loop.
`gateRun d g i = (issue_i, last_i)` where `issue_i` is the instant request
`i` is issued and `last_i` the value of `last_request_time` after it (the
`Instant::now()` re-read once `query_transpose` returns, request `i`
having taken `d i` ms).  `g i ≥ 0` is the time spent between the previous
completion and reaching the pacing block again (record processing, etc.);
`last_request_time` is initialised at function entry, taken as instant
0. -/
def gateRun (d g : Nat → Nat) : Nat → Nat × Nat
  | 0 =>
    let issue := gateStep 0 (g 0)
    (issue, issue + d 0)
  | i + 1 =>
    let last := (gateRun d g i).2
    let issue := gateStep last (last + g (i + 1))
    (issue, issue + d (i + 1))

/-- Issue instant of request `i`. -/
def gateIssue (d g : Nat → Nat) (i : Nat) : Nat := (gateRun d g i).1

theorem gateRun_snd (d g : Nat → Nat) (i : Nat) :
    (gateRun d g i).2 = gateIssue d g i + d i := by
  cases i <;> rfl

theorem gateStep_ge (last pre : Nat) : last + 1000 ≤ gateStep last pre ∨
    gateStep last pre = pre := by
  unfold gateStep
  split
  · exact Or.inl (Nat.le_refl _)
  · exact Or.inr rfl

/-- Claim C7: any two consecutive remote requests issued by
`query_ethereum_transactions` are at least 1000 ms apart: before each
request the caller checks the time elapsed since `last_request_time` (the
instant re-read after the previous request completed) and sleeps for the
remainder of the 1-second interval if needed, so consecutive issue
instants differ by at least 1000 ms (in the deterministic logical-clock
model, for every request-duration script `d` and inter-request-work
script `g`). -/
theorem C7_rate_paced (d g : Nat → Nat) (i : Nat) :
    gateIssue d g i + 1000 ≤ gateIssue d g (i + 1) := by
  have hsnd := gateRun_snd d g i
  have hstep : gateIssue d g (i + 1) =
      gateStep ((gateRun d g i).2) ((gateRun d g i).2 + g (i + 1)) := rfl
  rw [hstep, hsnd]
  unfold gateStep
  split <;> omega

/-- Witness for C7: with instantaneous requests and no inter-request
work, the first two issue instants are still 1000 ms apart. -/
theorem C7_rate_paced_witness :
    gateIssue (fun _ => 0) (fun _ => 0) 0 + 1000 ≤
      gateIssue (fun _ => 0) (fun _ => 0) 1 :=
  C7_rate_paced (fun _ => 0) (fun _ => 0) 0

/-! ## Pagination of query_ethereum_transactions (src/api/transpose.rs
lines 63-106) -/

/-- Observable outcome of the per-address pagination loop: the accumulated
`all_transactions` records, the list of `offset` values at which requests
were issued (in order), and whether the approximate-1MB warning fired
("Warning: Reached approximate 1 MB response size limit...", a println
followed by `break`, not an error). -/
structure PageRun (α : Type) where
  records : List α
  offsets : List Nat
  truncated : Bool
deriving DecidableEq

/-- The body of the per-address `loop` of `query_ethereum_transactions`,
with the remote scripted as `pages : offset ↦ returned batch` (a
successful `query_transpose` call at that offset; `limit` is fixed at
100).  The rate-gate sleep at the top of the loop is modelled separately
(`gateRun`); it never changes control flow.  `fuel` bounds the remaining
iterations: every recursive call strictly grows `acc` and is guarded by
`(acc ++ batch).length * 1000 ≤ 1000000`, so from an accumulator of any
length at most 1001 recursive calls can happen; `paginateRun` passes
fuel 1002, so the fuel-exhaustion branch is never reached. -/
def paginateLoop {α : Type} (pages : Nat → List α) :
    Nat → Nat → List α → List Nat → PageRun α
  | 0, _, acc, reqs => ⟨acc, reqs, false⟩
  | fuel + 1, offset, acc, reqs =>
    let batch := pages offset
    if batch.isEmpty then ⟨acc, reqs ++ [offset], false⟩
    else
      let acc' := acc ++ batch
      if acc'.length * 1000 > 1000000 then ⟨acc', reqs ++ [offset], true⟩
      else paginateLoop pages fuel (offset + 100) acc' (reqs ++ [offset])

/-- One whole pagination run for a single address: `offset` starts at 0
and the accumulator starts empty (exactly the situation of the CLI, which
calls `query_ethereum_transactions` with a one-element address slice,
src/cli/mod.rs line 285). -/
def paginateRun {α : Type} (pages : Nat → List α) : PageRun α :=
  paginateLoop pages 1002 0 [] []

/-- `query_ethereum_transactions` over its address slice: the
`all_transactions` accumulator is shared across addresses while `offset`
restarts at 0 for each address. -/
def queryEthereumTransactions {α : Type} (pagesOf : List (Nat → List α)) :
    List α :=
  pagesOf.foldl (fun acc pages => (paginateLoop pages 1002 0 acc []).records) []

theorem queryEthereumTransactions_single {α : Type} (pages : Nat → List α) :
    queryEthereumTransactions [pages] = (paginateRun pages).records := rfl

theorem paginateLoop_succ {α : Type} (pages : Nat → List α)
    (fuel offset : Nat) (acc : List α) (reqs : List Nat) :
    paginateLoop pages (fuel + 1) offset acc reqs =
      if (pages offset).isEmpty then ⟨acc, reqs ++ [offset], false⟩
      else if (acc ++ pages offset).length * 1000 > 1000000 then
        ⟨acc ++ pages offset, reqs ++ [offset], true⟩
      else paginateLoop pages fuel (offset + 100) (acc ++ pages offset)
        (reqs ++ [offset]) := rfl

theorem length_le_flatten_length {α : Type} (bs : List (List α))
    (hne : ∀ b ∈ bs, b ≠ []) : bs.length ≤ bs.flatten.length := by
  induction bs with
  | nil => simp
  | cons b rest ih =>
    have hb : 1 ≤ b.length := by
      have hbne := hne b (by simp)
      cases b with
      | nil => exact absurd rfl hbne
      | cons x xs => simp
    have hrest := ih (fun c hc => hne c (List.mem_cons_of_mem _ hc))
    simp only [List.flatten_cons, List.length_append, List.length_cons]
    omega

/-- Running the loop through a block `bs` of scripted non-empty pages that
stay under the size cap consumes one fuel unit and one 100-step of offset
per page, appending each page to the accumulator and each offset to the
request log. -/
theorem paginateLoop_through {α : Type} (pages : Nat → List α)
    (bs : List (List α)) :
    ∀ (j fuel : Nat) (acc : List α) (reqs : List Nat),
      (∀ i, i < bs.length → pages (100 * j + 100 * i) = bs.getD i []) →
      (∀ b ∈ bs, b ≠ []) →
      acc.length + bs.flatten.length ≤ 1000 →
      paginateLoop pages (fuel + bs.length) (100 * j) acc reqs =
        paginateLoop pages fuel (100 * j + 100 * bs.length) (acc ++ bs.flatten)
          (reqs ++ List.range' (100 * j) bs.length 100) := by
  induction bs with
  | nil =>
    intro j fuel acc reqs _ _ _
    simp
  | cons b rest ih =>
    intro j fuel acc reqs hscript hne hcap
    have hb : pages (100 * j) = b := by simpa using hscript 0 (by simp)
    have hbne : b ≠ [] := hne b (by simp)
    have hcap' : acc.length + (b.length + rest.flatten.length) ≤ 1000 := by
      simpa [List.flatten_cons] using hcap
    have hstep : fuel + (b :: rest).length = (fuel + rest.length) + 1 := by
      simp only [List.length_cons]
      omega
    rw [hstep, paginateLoop_succ, hb,
      if_neg (by simpa [List.isEmpty_iff] using hbne),
      if_neg (by simp only [List.length_append, gt_iff_lt, not_lt]; omega)]
    have h100 : 100 * j + 100 = 100 * (j + 1) := by ring
    rw [h100]
    have hscript' : ∀ i, i < rest.length →
        pages (100 * (j + 1) + 100 * i) = rest.getD i [] := by
      intro i hi
      have hsi := hscript (i + 1) (by simpa using Nat.succ_lt_succ hi)
      rw [List.getD_cons_succ] at hsi
      have harg : 100 * j + 100 * (i + 1) = 100 * (j + 1) + 100 * i := by ring
      rwa [harg] at hsi
    have hne' : ∀ c ∈ rest, c ≠ [] := fun c hc => hne c (List.mem_cons_of_mem _ hc)
    have hcap'' : (acc ++ b).length + rest.flatten.length ≤ 1000 := by
      simp only [List.length_append]
      omega
    rw [ih (j + 1) fuel (acc ++ b) (reqs ++ [100 * j]) hscript' hne' hcap'']
    have harg2 : 100 * (j + 1) + 100 * rest.length =
        100 * j + 100 * (b :: rest).length := by
      simp only [List.length_cons]
      ring
    rw [harg2]
    have hacc : (acc ++ b) ++ rest.flatten = acc ++ (b :: rest).flatten := by
      simp [List.flatten_cons]
    have hreqs : (reqs ++ [100 * j]) ++ List.range' (100 * (j + 1)) rest.length 100 =
        reqs ++ List.range' (100 * j) (b :: rest).length 100 := by
      simp [List.length_cons, List.range'_succ, List.append_assoc, Nat.mul_succ]
    rw [hacc, hreqs]

/-- Claim C4: as soon as a fetched page is empty, the pagination loop for
that address terminates normally, issuing no further request, and returns
exactly the records of the earlier non-empty pages; the offsets requested
are 0, 100, ..., 100·n where page n (the first empty one) is the last
request.  The scripted pages in `bs` may have any non-zero size, so a page
with fewer than `limit = 100` records does not end pagination by itself:
the next offset is still requested (only the empty page at `100 * n`
stops the loop). -/
theorem C4_empty_page_terminates {α : Type} (pages : Nat → List α)
    (bs : List (List α))
    (hscript : ∀ i, i < bs.length → pages (100 * i) = bs.getD i [])
    (hne : ∀ b ∈ bs, b ≠ [])
    (hempty : pages (100 * bs.length) = [])
    (hcap : bs.flatten.length ≤ 1000) :
    paginateRun pages = ⟨bs.flatten, List.range' 0 (bs.length + 1) 100, false⟩ := by
  have hlen : bs.length ≤ bs.flatten.length := length_le_flatten_length bs hne
  have hsplit : (1002 : Nat) = (1002 - bs.length) + bs.length := by omega
  obtain ⟨f, hf⟩ : ∃ f, 1002 - bs.length = f + 1 := ⟨1002 - bs.length - 1, by omega⟩
  unfold paginateRun
  rw [show (0 : Nat) = 100 * 0 by ring, hsplit,
    paginateLoop_through pages bs 0 (1002 - bs.length) [] []
      (by intro i hi; simpa using hscript i hi) hne (by simpa using hcap),
    hf, paginateLoop_succ]
  rw [show (100 * 0 + 100 * bs.length : Nat) = 100 * bs.length by ring, hempty]
  simp [List.range'_concat]

/-- Witness for C4: pages [0,1] (2 < 100 records) and [7] (1 record) at
offsets 0 and 100, an empty page at offset 200: the run returns all three
records, requested exactly offsets 0, 100, 200 (so the short pages did not
stop it, the empty one did), and did not truncate. -/
theorem C4_witness :
    paginateRun (fun o => if o = 0 then [0, 1] else
        if o = 100 then [7] else ([] : List Nat)) =
      ⟨[0, 1, 7], [0, 100, 200], false⟩ := by
  have h := C4_empty_page_terminates
    (fun o => if o = 0 then [0, 1] else if o = 100 then [7] else ([] : List Nat))
    [[0, 1], [7]] (by decide) (by decide) (by decide) (by decide)
  simpa using h

/-- Offsets requested by the pagination loop form an arithmetic
progression with step exactly `limit = 100` starting at the initial
offset. -/
theorem paginateLoop_offsets {α : Type} (pages : Nat → List α) :
    ∀ (fuel off : Nat) (acc : List α) (reqs : List Nat),
      ∃ m, (paginateLoop pages fuel off acc reqs).offsets =
          reqs ++ List.range' off m 100 ∧ (0 < fuel → 1 ≤ m) := by
  intro fuel
  induction fuel with
  | zero =>
    intro off acc reqs
    exact ⟨0, by simp [paginateLoop], by omega⟩
  | succ n ih =>
    intro off acc reqs
    rw [paginateLoop_succ]
    split
    · exact ⟨1, by simp [List.range'_one], fun _ => Nat.le_refl 1⟩
    · split
      · exact ⟨1, by simp [List.range'_one], fun _ => Nat.le_refl 1⟩
      · obtain ⟨m, hm, _⟩ := ih (off + 100) (acc ++ pages off) (reqs ++ [off])
        refine ⟨m + 1, ?_, fun _ => by omega⟩
        rw [hm]
        simp [List.range'_succ, List.append_assoc]

/-- Claim C5: within the pagination run for a single address the offset
starts at 0 and the sequence of offsets used by successive requests is
exactly 0, 100, 200, ... (an arithmetic progression with step `limit =
100`, hence strictly increasing and never reset or decreased), with at
least one request issued. -/
theorem C5_offset_monotone {α : Type} (pages : Nat → List α) :
    ∃ m, (paginateRun pages).offsets = List.range' 0 m 100 ∧ 1 ≤ m := by
  obtain ⟨m, hm, h1⟩ := paginateLoop_offsets pages 1002 0 [] []
  exact ⟨m, by simpa using hm, h1 (by omega)⟩

/-- Witness for C5 at a concrete scripted remote. -/
theorem C5_offset_monotone_witness :
    ∃ m, (paginateRun (fun _ => ([] : List Nat))).offsets =
      List.range' 0 m 100 ∧ 1 ≤ m :=
  C5_offset_monotone (fun _ => ([] : List Nat))

/-- Claim C6: when the accumulated size estimate — record count times the
fixed per-record weight 1000, not a true byte size — exceeds the 1000000
cap, the run stops fetching further pages right after the breaching page
and returns the records accumulated so far (breaching page included) as a
success, with the truncation warning flag set, not an error: the offsets
requested stop at the breaching page `100 * bs.length` and the page at
`100 * (bs.length + 1)` is never requested. -/
theorem C6_size_cap_truncates {α : Type} (pages : Nat → List α)
    (bs : List (List α)) (b : List α)
    (hscript : ∀ i, i < bs.length → pages (100 * i) = bs.getD i [])
    (hb : pages (100 * bs.length) = b)
    (hne : ∀ x ∈ bs, x ≠ []) (hbne : b ≠ [])
    (hunder : bs.flatten.length ≤ 1000)
    (hover : 1000 < bs.flatten.length + b.length) :
    paginateRun pages =
      ⟨bs.flatten ++ b, List.range' 0 (bs.length + 1) 100, true⟩ := by
  have hlen : bs.length ≤ bs.flatten.length := length_le_flatten_length bs hne
  have hsplit : (1002 : Nat) = (1002 - bs.length) + bs.length := by omega
  obtain ⟨f, hf⟩ : ∃ f, 1002 - bs.length = f + 1 := ⟨1002 - bs.length - 1, by omega⟩
  unfold paginateRun
  rw [show (0 : Nat) = 100 * 0 by ring, hsplit,
    paginateLoop_through pages bs 0 (1002 - bs.length) [] []
      (by intro i hi; simpa using hscript i hi) hne (by simpa using hunder),
    hf, paginateLoop_succ]
  rw [show (100 * 0 + 100 * bs.length : Nat) = 100 * bs.length by ring, hb,
    if_neg (by simpa [List.isEmpty_iff] using hbne),
    if_pos (by simp only [List.nil_append, List.length_append, gt_iff_lt]; omega)]
  simp [List.range'_concat]

/-- Witness for C6: two pages of 600 records each (each individually under
the 1000-record cap) cumulatively reach 1200 records; the run stops after
the second page with the truncation flag set, returning all 1200
records, and never requests offset 200. -/
theorem C6_witness :
    paginateRun (fun o => if o = 0 then List.replicate 600 0 else
        if o = 100 then List.replicate 600 1 else ([] : List Nat)) =
      ⟨List.replicate 600 0 ++ List.replicate 600 1, [0, 100], true⟩ := by
  have h := C6_size_cap_truncates
    (fun o => if o = 0 then List.replicate 600 0 else
      if o = 100 then List.replicate 600 1 else ([] : List Nat))
    [List.replicate 600 0] (List.replicate 600 1)
    (by intro i hi
        have hi1 : i < 1 := by simpa only [List.length_singleton] using hi
        have hi0 : i = 0 := by omega
        subst hi0; rfl)
    rfl
    (by intro x hx
        rw [List.mem_singleton] at hx
        subst hx
        simp only [ne_eq, List.replicate_eq_nil_iff]
        omega)
    (by simp only [ne_eq, List.replicate_eq_nil_iff]
        omega)
    (by simp only [List.flatten_cons, List.flatten_nil, List.append_nil,
          List.length_replicate]
        omega)
    (by simp only [List.flatten_cons, List.flatten_nil, List.append_nil,
          List.length_replicate]
        omega)
  rw [show List.range' 0 ([List.replicate 600 (0 : Nat)].length + 1) 100 =
    [0, 100] from rfl] at h
  rw [show [List.replicate 600 (0 : Nat)].flatten = List.replicate 600 0 by
    simp only [List.flatten_cons, List.flatten_nil, List.append_nil]] at h
  exact h

/-! ## Staged writes to urlscan_domain_data (src/api/urlscan.rs lines
77-118, 161-190, 204-218; schema in src/helpers/setup_schema.rs lines
65-83) -/

/-- Row of the `urlscan_domain_data` table, keyed by its UNIQUE `uuid`
column (the conflict target of every statement involved); the `id` and
`created_at` bookkeeping columns are omitted.  `none` is SQL NULL. -/
structure DomainRow where
  domain : Option String
  result_url : Option String
  api_url : Option String
  visibility : Option String
  useragent : Option String
  country : Option String
  asn : Option String
  ip : Option String
  title : Option String
  verdict_score : Option String
  verdict_brands : Option String
  screenshot_path : Option String
deriving DecidableEq

/-- Metadata bound by the stage-1 insert of `scan_domain` (lines 83-91). -/
structure ScanMeta where
  domain : String
  result_url : String
  api_url : String
  visibility : String
  useragent : String
  country : String

/-- Verdict fields bound by the stage-2 update (lines 167-172). -/
structure ScanVerdict where
  asn : String
  ip : String
  title : String
  verdict_score : String
  verdict_brands : String

/-- Stage 1 of `scan_domain` (lines 78-94): `INSERT OR REPLACE INTO
urlscan_domain_data (domain, uuid, result_url, api_url, visibility,
useragent, country) VALUES (...)`.  SQLite REPLACE removes any row
conflicting on the UNIQUE `uuid` and inserts a fresh row whose unlisted
columns are NULL. -/
def insertInitialScan (t : String → Option DomainRow) (uuid : String)
    (m : ScanMeta) : String → Option DomainRow :=
  fun k => if k = uuid then
    some ⟨some m.domain, some m.result_url, some m.api_url, some m.visibility,
      some m.useragent, some m.country, none, none, none, none, none, none⟩
  else t k

/-- Stage 2 of `scan_domain` (lines 162-174): `UPDATE urlscan_domain_data
SET asn = ?, ip = ?, title = ?, verdict_score = ?, verdict_brands = ?
WHERE uuid = ?` — updates exactly the five listed columns of the row
matching the key, leaving every other column as it was; no row, no
change. -/
def updateVerdict (t : String → Option DomainRow) (uuid : String)
    (v : ScanVerdict) : String → Option DomainRow :=
  fun k => if k = uuid then
    (t k).map (fun r =>
      { r with
        asn := some v.asn,
        ip := some v.ip,
        title := some v.title,
        verdict_score := some v.verdict_score,
        verdict_brands := some v.verdict_brands })
  else t k

/-- Stage 3 of `scan_domain` (lines 205-210): `UPDATE urlscan_domain_data
SET screenshot_path = ? WHERE uuid = ?`. -/
def updateScreenshotPath (t : String → Option DomainRow) (uuid : String)
    (path : String) : String → Option DomainRow :=
  fun k => if k = uuid then
    (t k).map (fun r => { r with screenshot_path := some path })
  else t k

/-- Claim C8: each later-stage write of the staged scan-persistence flow —
the asn/ip/title/verdict_score/verdict_brands update, then the
screenshot_path update — modifies only its own column subset of the row
keyed by the scan uuid, leaving the columns written by earlier stages
(domain, uuid, result_url, api_url, visibility, useragent, country)
unchanged and other keys' rows untouched; composing the initial metadata
insert with the two enrichment updates against the same uuid therefore
yields a single record holding both the metadata and the enrichment
fields, with no field loss. -/
theorem C8_staged_upserts_compose (t : String → Option DomainRow)
    (uuid : String) (m : ScanMeta) (v : ScanVerdict) (p : String) :
    (∀ r : DomainRow, t uuid = some r →
      updateVerdict t uuid v uuid =
        some { r with
               asn := some v.asn,
               ip := some v.ip,
               title := some v.title,
               verdict_score := some v.verdict_score,
               verdict_brands := some v.verdict_brands } ∧
      updateScreenshotPath t uuid p uuid =
        some { r with screenshot_path := some p }) ∧
    (updateScreenshotPath
        (updateVerdict (insertInitialScan t uuid m) uuid v) uuid p) uuid =
      some ⟨some m.domain, some m.result_url, some m.api_url,
        some m.visibility, some m.useragent, some m.country,
        some v.asn, some v.ip, some v.title, some v.verdict_score,
        some v.verdict_brands, some p⟩ ∧
    (∀ k, k ≠ uuid →
      updateVerdict t uuid v k = t k ∧
      updateScreenshotPath t uuid p k = t k) := by
  refine ⟨?_, ?_, ?_⟩
  · intro r hr
    constructor
    · simp [updateVerdict, hr]
    · simp [updateScreenshotPath, hr]
  · simp [updateScreenshotPath, updateVerdict, insertInitialScan]
  · intro k hk
    constructor
    · simp [updateVerdict, hk]
    · simp [updateScreenshotPath, hk]

/-- Witness for C8 on a concrete one-row table: stage-2 and stage-3
updates leave the metadata columns of the existing row intact. -/
theorem C8_staged_upserts_compose_witness :
    (updateVerdict
        (fun k => if k = "u" then
          some ⟨some "d", some "r", some "a", some "p", some "ua", some "c",
            none, none, none, none, none, none⟩
        else none)
        "u" ⟨"asn1", "ip1", "t1", "s1", "b1"⟩) "u" =
      some ⟨some "d", some "r", some "a", some "p", some "ua", some "c",
        some "asn1", some "ip1", some "t1", some "s1", some "b1", none⟩ := by
  have h := (C8_staged_upserts_compose
    (fun k => if k = "u" then
      some ⟨some "d", some "r", some "a", some "p", some "ua", some "c",
        none, none, none, none, none, none⟩
    else none)
    "u" ⟨"d", "r", "a", "p", "ua", "c"⟩ ⟨"asn1", "ip1", "t1", "s1", "b1"⟩
    "sp").1
    ⟨some "d", some "r", some "a", some "p", some "ua", some "c",
      none, none, none, none, none, none⟩ rfl
  exact h.1

/-! ## Record persistence (src/helpers/storage.rs lines 10-26,
src/helpers/postgres.rs lines 105-141) -/

/-- serde_json value as handled by the save functions. -/
inductive Json where
  | str (s : String)
  | num (n : Int)
  | bool (b : Bool)
  | null
  | arr (elems : List Json)
  | obj (fields : List (String × Json))

/-- `serde_json::Value::as_str`: `Some` exactly for JSON strings. -/
def Json.asStr : Json → Option String
  | .str s => some s
  | _ => none

/-- Mirrors `query.bind(value.as_str().unwrap_or(""))` — storage.rs line
19 and postgres.rs line 130. -/
def bindParam (v : Json) : String := v.asStr.getD ""

/-- The values bound for one record, in field order
(`record.as_object().unwrap().values()`). -/
def recordBinds (record : List (String × Json)) : List String :=
  record.map (fun kv => bindParam kv.2)

/-- `save_to_sqlite` (storage.rs lines 10-26): per record, build the
`INSERT OR REPLACE` statement, bind every field value through
`as_str().unwrap_or("")` and run `query.execute(pool).await?` — the `?`
returns the first error to the caller and stops the loop.  `exec` scripts
the database's response to a given bind list; the function returns its
result together with the bind lists passed to execute, in order. -/
def save_to_sqlite (exec : List String → Except String Unit) :
    List (List (String × Json)) → Except String Unit × List (List String)
  | [] => (.ok (), [])
  | record :: rest =>
    let binds := recordBinds record
    match exec binds with
    | .error e => (.error e, [binds])
    | .ok _ =>
      let r := save_to_sqlite exec rest
      (r.1, binds :: r.2)

/-- `save_to_postgres` (postgres.rs lines 105-141): per record, build the
upsert statement, bind the same way, and `match query.execute(pool).await`
— both arms only print, the loop continues with the next record, and the
function ends with `Ok(())` unconditionally. -/
def save_to_postgres (exec : List String → Except String Unit) :
    List (List (String × Json)) → Except String Unit × List (List String)
  | [] => (.ok (), [])
  | record :: rest =>
    let binds := recordBinds record
    let _outcome := exec binds
    let r := save_to_postgres exec rest
    (r.1, binds :: r.2)

/-- Counterexample to claim C9 (the claim says both `save_to_sqlite` and
`save_to_postgres` surface a connection-level execute failure as their
result rather than swallowing it): with the database scripted to fail
every execute, `save_to_postgres` still returns `Ok(())` — the error is
logged and swallowed, not surfaced. -/
theorem C9_counterexample :
    (save_to_postgres (fun _ => .error "connection lost")
      [[("address", Json.str "0xabc")]]).1 = .ok () ∧
    ∀ e : String, (save_to_postgres (fun _ => .error "connection lost")
      [[("address", Json.str "0xabc")]]).1 ≠ .error e :=
  ⟨rfl, fun _ h => Except.noConfusion h⟩

/-- Claim C9 amended: `save_to_sqlite` surfaces the first failing record's
execute error as its result, passing each record's binds to execute at
most once (no internal retry) and not touching the remaining records;
`save_to_postgres` also executes each record exactly once with no retry,
but catches every execute error, only logs it, continues with the
remaining records, and always returns `Ok(())` — its caller never sees the
failure. -/
theorem C9_amended (exec : List String → Except String Unit) :
    (∀ (record : List (String × Json)) (rest : List (List (String × Json)))
      (e : String), exec (recordBinds record) = .error e →
      save_to_sqlite exec (record :: rest) = (.error e, [recordBinds record])) ∧
    (∀ (record : List (String × Json)) (rest : List (List (String × Json))),
      exec (recordBinds record) = .ok () →
      save_to_sqlite exec (record :: rest) =
        ((save_to_sqlite exec rest).1,
          recordBinds record :: (save_to_sqlite exec rest).2)) ∧
    (∀ rs : List (List (String × Json)),
      (save_to_postgres exec rs).1 = .ok () ∧
      (save_to_postgres exec rs).2 = rs.map recordBinds) := by
  refine ⟨?_, ?_, ?_⟩
  · intro record rest e he
    simp [save_to_sqlite, he]
  · intro record rest he
    simp [save_to_sqlite, he]
  · intro rs
    induction rs with
    | nil => exact ⟨rfl, rfl⟩
    | cons r rest ih =>
      refine ⟨?_, ?_⟩
      · show (save_to_postgres exec rest).1 = .ok ()
        exact ih.1
      · show recordBinds r :: (save_to_postgres exec rest).2 = _
        simp [ih.2]

/-- Witness for the amended C9: a failing execute makes `save_to_sqlite`
return the error after a single attempt, while a succeeding one lets it
continue. -/
theorem C9_amended_witness :
    save_to_sqlite (fun _ => .error "connection lost")
      [[("address", Json.str "0xabc")]] =
      (.error "connection lost", [["0xabc"]]) ∧
    save_to_sqlite (fun _ => .ok ()) [[("address", Json.str "0xabc")]] =
      (.ok (), [["0xabc"]]) := by
  constructor
  · exact (C9_amended (fun _ => .error "connection lost")).1
      [("address", Json.str "0xabc")] [] "connection lost" rfl
  · exact (C9_amended (fun _ => .ok ())).2.1
      [("address", Json.str "0xabc")] [] rfl

/-- Claim C10: every field value a record carries through
`save_to_sqlite` / `save_to_postgres` is bound via
`as_str().unwrap_or("")`, so a JSON number, boolean or null (and likewise
an array or object) is bound as the empty string, while a string field is
bound with its content; the bind lists the two functions pass to execute
are exactly the per-record `recordBinds`. -/
theorem C10_nonstring_binds_empty (exec : List String → Except String Unit)
    (rs : List (List (String × Json))) (hok : ∀ bs, exec bs = .ok ()) :
    (∀ n : Int, bindParam (.num n) = "") ∧
    (∀ b : Bool, bindParam (.bool b) = "") ∧
    bindParam .null = "" ∧
    (∀ elems : List Json, bindParam (.arr elems) = "") ∧
    (∀ fields : List (String × Json), bindParam (.obj fields) = "") ∧
    (∀ s : String, bindParam (.str s) = s) ∧
    (save_to_sqlite exec rs).2 = rs.map recordBinds ∧
    (save_to_postgres exec rs).2 = rs.map recordBinds := by
  refine ⟨fun _ => rfl, fun _ => rfl, rfl, fun _ => rfl, fun _ => rfl,
    fun _ => rfl, ?_, ?_⟩
  · induction rs with
    | nil => rfl
    | cons r rest ih =>
      simp [save_to_sqlite, hok, ih]
  · induction rs with
    | nil => rfl
    | cons r rest ih =>
      show recordBinds r :: (save_to_postgres exec rest).2 = _
      simp [ih]

/-- Witness for C10: a record with a number, a boolean, a null and a
string field is bound as ["", "", "", "text"] by both save functions. -/
theorem C10_nonstring_binds_empty_witness :
    (save_to_sqlite (fun _ => .ok ())
      [[("block_number", Json.num 17), ("flag", Json.bool true),
        ("output", Json.null), ("from_address", Json.str "text")]]).2 =
      [["", "", "", "text"]] ∧
    (save_to_postgres (fun _ => .ok ())
      [[("block_number", Json.num 17), ("flag", Json.bool true),
        ("output", Json.null), ("from_address", Json.str "text")]]).2 =
      [["", "", "", "text"]] := by
  have h := C10_nonstring_binds_empty (fun _ => .ok ())
    [[("block_number", Json.num 17), ("flag", Json.bool true),
      ("output", Json.null), ("from_address", Json.str "text")]]
    (fun _ => rfl)
  exact ⟨h.2.2.2.2.2.2.1, h.2.2.2.2.2.2.2⟩

end Fragarach
